import Mathlib

/-!
Verification of the postgrez bulk-transfer core.

Shallow embedding of `postgrez/utils.py` and `postgrez/postgrez.py`:
Python `str` values that are only concatenated are modelled as `String`;
text that is split, sliced and buffered (export parsing, the iterator
stream adapter) is modelled as `List Char`, which is the same data seen
through `String.toList`.  Fallible Python code is modelled with
`Except`/`Option`; a Python function that can either return or raise is
modelled with `PyResult`.  External collaborators (psycopg2 cursor and
connection, the file system) are modelled by explicit parameters giving
their outcome, and by an event trace recording the calls made to them.
-/

namespace Postgrez

/-! ### Python string primitives -/

/-- Python `str.lower()`, character by character. -/
def pyLower (s : String) : String := String.mk (s.toList.map Char.toLower)

/-- The Python regex class `\s` over ASCII: space, tab, newline, carriage
return, vertical tab and form feed. -/
def pyIsSpace (c : Char) : Bool :=
  c = ' ' || c = '\t' || c = '\n' || c = '\r' || c = '\x0b' || c = '\x0c'

/-- Embeds `re.match('\s*select', query, re.IGNORECASE)` from
`utils.build_copy_query` (utils.py line 89) and `Export._build_copy_query`
(postgrez.py line 302): after stripping every leading whitespace character,
the text starts with `select`, case-insensitively.  (`\s*` is greedy and
`s` is not a whitespace character, so the regex matches exactly when the
fully stripped text starts with `select`.) -/
def matchesSelect (q : String) : Bool :=
  List.isPrefixOf "select".toList ((q.toList.dropWhile pyIsSpace).map Char.toLower)

/-- Outcome of a Python function call: a returned value or a raised
exception carrying its message. -/
inductive PyResult (α : Type)
  | ret (a : α)
  | exn (msg : String)
deriving DecidableEq, Repr

/-! ### The command builder `utils.build_copy_query` (utils.py lines 40-111) -/

/-- `'HEADER' if header else ''` (utils.py line 105, postgrez.py line 318). -/
def headerClause (header : Bool) : String := if header then "HEADER" else ""

/-- `('QUOTE ' + "'{}'".format(quote) if quote else '')` (utils.py line 106). -/
def quoteClause : Option String → String
  | some q => "QUOTE '" ++ q ++ "'"
  | none => ""

/-- `('NULL ' + "'{}'".format(null) if null else '')` (utils.py line 107). -/
def nullClause : Option String → String
  | some s => "NULL '" ++ s ++ "'"
  | none => ""

/-- `columns = '(' + ','.join(columns) + ')'` guarded by `if columns:`
(utils.py lines 77-78); a `None` or empty column list is falsy and yields
the empty clause. -/
def colsClause (columns : List String) : String :=
  if columns.isEmpty then "" else "(" ++ String.intercalate "," columns ++ ")"

/-- The template string of utils.py lines 97-98,
`"COPY {0} {1} {2} WITH DELIMITER '{3}' " " CSV {4} {5} {6}"`: the two
Python literals concatenate to a single template with two spaces between
`'{3}'` and `CSV`.  Argument order (line 100-108): query, copy mode,
column clause, delimiter, header clause, quote clause, null clause. -/
def copyTemplate (q copyMode cols d hdr qc nc : String) : String :=
  "COPY " ++ q ++ " " ++ copyMode ++ " " ++ cols ++ " WITH DELIMITER '" ++ d ++ "'  CSV "
    ++ hdr ++ " " ++ qc ++ " " ++ nc

/-- The tail of `utils.build_copy_query` after the mode has been mapped to
its direction keyword: the select test wraps a query target in parentheses
and discards the column clause (with a `log.warning`, reported in the
second component), a table target keeps the column clause. -/
def buildAssemble (query : String) (columns : List String) (delimiter : String) (header : Bool)
    (quote null : Option String) (copyMode : String) : PyResult (Option String) × Bool :=
  if matchesSelect query then
    (PyResult.ret (some (copyTemplate ("(" ++ query ++ ")") copyMode "" delimiter
      (headerClause header) (quoteClause quote) (nullClause null))), !columns.isEmpty)
  else
    (PyResult.ret (some (copyTemplate query copyMode (colsClause columns) delimiter
      (headerClause header) (quoteClause quote) (nullClause null))), false)

/-- `utils.build_copy_query(mode, query, columns, delimiter, header, quote,
null)` (utils.py lines 40-111).  A mode other than `load`/`export`
(case-insensitively) makes the function `log.error` and `return` with no
value (utils.py lines 84-86): it returns Python `None`, it does not raise.
Nothing in the body can raise for these argument types, so the outer
`try/except` never fires and the result is always `PyResult.ret`.  The
second component records whether `log.warning` was emitted for a discarded
column list. -/
def build_copy_query (mode query : String) (columns : List String) (delimiter : String)
    (header : Bool) (quote null : Option String) : PyResult (Option String) × Bool :=
  if pyLower mode = "load" then buildAssemble query columns delimiter header quote null "FROM STDIN"
  else if pyLower mode = "export" then
    buildAssemble query columns delimiter header quote null "TO STDOUT"
  else (PyResult.ret none, false)

/-- Whether a call outcome is a raised exception. -/
def buildRaises (r : PyResult (Option String) × Bool) : Bool :=
  match r.1 with
  | PyResult.exn _ => true
  | PyResult.ret _ => false

/-! ### The command builder `Export._build_copy_query` (postgrez.py lines 276-322) -/

/-- The template of postgrez.py lines 308-312: table branch
`"COPY {0} {1} TO STDOUT WITH DELIMITER '{2}' " " CSV {3}"` (again two
spaces before `CSV`); the query branch is the same with `({0})` in place
of `{0}`, which this embedding passes in as a pre-parenthesised target. -/
def exportTemplate (q cols d hdr : String) : String :=
  "COPY " ++ q ++ " " ++ cols ++ " TO STDOUT WITH DELIMITER '" ++ d ++ "'  CSV " ++ hdr

/-- `Export._build_copy_query(query, columns, delimiter, header)`
(postgrez.py lines 276-322).  The second component records whether the
column list was discarded with a `log.warning` because the target is a
query.  The body cannot raise for these argument types, so the
`try/except` wrapper is not modelled. -/
def export_build_copy_query (query : String) (columns : List String) (delimiter : String)
    (header : Bool) : String × Bool :=
  if matchesSelect query then
    (exportTemplate ("(" ++ query ++ ")") "" delimiter (headerClause header), !columns.isEmpty)
  else
    (exportTemplate query (colsClause columns) delimiter (headerClause header), false)

/-! ### Claims C3, C4, C5 -/

/-- C3, counterexample.  The claim states that
`build(Export, "orders", columns=["id","amount"], delimiter=",", header=true)`
returns exactly `"COPY orders (id,amount) TO STDOUT WITH DELIMITER ',' CSV HEADER"`
with the column list between the target and the direction keyword.  Neither
builder returns that string: `utils.build_copy_query` places the column
list after `TO STDOUT` (its template is `COPY {0} {1} {2} WITH ...` with
`{1}` the direction and `{2}` the columns) and pads with extra spaces, and
`Export._build_copy_query`, which does put the columns before `TO STDOUT`,
emits two spaces before `CSV`. -/
theorem build_concrete_export_mismatch :
    (build_copy_query "export" "orders" ["id", "amount"] "," true none none).1
      ≠ PyResult.ret (some "COPY orders (id,amount) TO STDOUT WITH DELIMITER ',' CSV HEADER")
    ∧ (export_build_copy_query "orders" ["id", "amount"] "," true).1
      ≠ "COPY orders (id,amount) TO STDOUT WITH DELIMITER ',' CSV HEADER" := by
  decide

/-- C3, amended.  For every table target (one not matching `^\s*select`)
with a non-empty column list: `Export._build_copy_query` places the
parenthesized comma-joined column list immediately after the target and
before `TO STDOUT`, while `utils.build_copy_query` places it immediately
after the direction keyword; concretely the export build of `orders` with
columns `id, amount`, delimiter `,` and header yields
`"COPY orders (id,amount) TO STDOUT WITH DELIMITER ','  CSV HEADER"`
(two spaces before `CSV`) via `Export._build_copy_query` and
`"COPY orders TO STDOUT (id,amount) WITH DELIMITER ','  CSV HEADER  "`
via `utils.build_copy_query`. -/
theorem table_columns_placement (q : String) (cols : List String) (d : String) (h : Bool)
    (hq : matchesSelect q = false) (hc : cols ≠ []) :
    export_build_copy_query q cols d h
      = (exportTemplate q ("(" ++ String.intercalate "," cols ++ ")") d (headerClause h), false)
    ∧ build_copy_query "export" q cols d h none none
      = (PyResult.ret (some (copyTemplate q "TO STDOUT" ("(" ++ String.intercalate "," cols ++ ")")
          d (headerClause h) "" "")), false)
    ∧ export_build_copy_query "orders" ["id", "amount"] "," true
      = ("COPY orders (id,amount) TO STDOUT WITH DELIMITER ','  CSV HEADER", false)
    ∧ (build_copy_query "export" "orders" ["id", "amount"] "," true none none).1
      = PyResult.ret (some "COPY orders TO STDOUT (id,amount) WITH DELIMITER ','  CSV HEADER  ") := by
  refine ⟨?_, ?_, by decide, by decide⟩
  · cases cols with
    | nil => exact absurd rfl hc
    | cons a l => simp [export_build_copy_query, hq, colsClause]
  · cases cols with
    | nil => exact absurd rfl hc
    | cons a l =>
      rw [build_copy_query, if_neg (by decide), if_pos (by decide)]
      simp [buildAssemble, hq, colsClause, quoteClause, nullClause]

/-- C3, witness for the amended theorem at the claim's concrete input. -/
theorem table_columns_placement_witness :
    matchesSelect "orders" = false ∧ (["id", "amount"] : List String) ≠ []
    ∧ export_build_copy_query "orders" ["id", "amount"] "," true
      = (exportTemplate "orders" ("(" ++ String.intercalate "," ["id", "amount"] ++ ")") ","
          (headerClause true), false) :=
  ⟨by decide, by decide,
    (table_columns_placement "orders" ["id", "amount"] "," true (by decide) (by decide)).1⟩

/-- C4, counterexample.  The claim states that a mode outside
`{load, export}` makes `build` raise a `BuildError`.  The source instead
logs an error and returns `None` (utils.py lines 84-86): no exception is
raised (and no `BuildError` class exists in `exceptions.py`). -/
theorem invalid_mode_no_exception :
    buildRaises (build_copy_query "frobnicate" "orders" [] "," true none none) = false
    ∧ (build_copy_query "frobnicate" "orders" [] "," true none none).1 = PyResult.ret none := by
  decide

/-- C4, amended.  For every mode argument outside `{load, export}` compared
case-insensitively, `build_copy_query` returns `None` (no command string)
after logging an error, rather than raising; the builder performs no I/O
at all. -/
theorem invalid_mode_returns_none (mode q : String) (cols : List String) (d : String) (h : Bool)
    (quote null : Option String) (h1 : pyLower mode ≠ "load") (h2 : pyLower mode ≠ "export") :
    build_copy_query mode q cols d h quote null = (PyResult.ret none, false) := by
  simp [build_copy_query, h1, h2]

/-- C4, witness for the amended theorem. -/
theorem invalid_mode_returns_none_witness :
    pyLower "copyto" ≠ "load" ∧ pyLower "copyto" ≠ "export"
    ∧ build_copy_query "copyto" "orders" ["id"] "," true none none = (PyResult.ret none, false) :=
  ⟨by decide, by decide,
    invalid_mode_returns_none "copyto" "orders" ["id"] "," true none none (by decide) (by decide)⟩

/-- C5 (confirmed).  For every query target (text matching `^\s*select`
case-insensitively), in both builders: the built command is the one built
with no columns at all (the supplied column list is omitted), the target
is wrapped in parentheses in the command, and the non-fatal warning signal
(`log.warning`) is emitted exactly when a column list was supplied. -/
theorem query_target_drops_columns (mode q : String) (cols : List String) (d : String)
    (h : Bool) (quote null : Option String) (hsel : matchesSelect q = true) :
    (build_copy_query mode q cols d h quote null).1 = (build_copy_query mode q [] d h quote null).1
    ∧ build_copy_query "export" q cols d h quote null
      = (PyResult.ret (some (copyTemplate ("(" ++ q ++ ")") "TO STDOUT" "" d (headerClause h)
          (quoteClause quote) (nullClause null))), !cols.isEmpty)
    ∧ build_copy_query "load" q cols d h quote null
      = (PyResult.ret (some (copyTemplate ("(" ++ q ++ ")") "FROM STDIN" "" d (headerClause h)
          (quoteClause quote) (nullClause null))), !cols.isEmpty)
    ∧ export_build_copy_query q cols d h
      = (exportTemplate ("(" ++ q ++ ")") "" d (headerClause h), !cols.isEmpty) := by
  refine ⟨?_, ?_, ?_, ?_⟩
  · unfold build_copy_query
    split
    · simp [buildAssemble, hsel]
    · split
      · simp [buildAssemble, hsel]
      · rfl
  · rw [build_copy_query, if_neg (by decide), if_pos (by decide)]
    simp [buildAssemble, hsel]
  · rw [build_copy_query, if_pos (by decide)]
    simp [buildAssemble, hsel]
  · simp [export_build_copy_query, hsel]

/-- C5, witness at the spec's concrete scenario. -/
theorem query_target_drops_columns_witness :
    matchesSelect "select id from orders" = true
    ∧ (build_copy_query "export" "select id from orders" ["id"] "," false none none).1
      = (build_copy_query "export" "select id from orders" [] "," false none none).1 :=
  ⟨by decide,
    (query_target_drops_columns "export" "select id from orders" ["id"] "," false none none
      (by decide)).1⟩

/-! ### The export result parser (postgrez.py lines 386-397, inside `Export.export_to_object`) -/

/-- Python slicing `l[1:stop]` with an arbitrary (possibly negative)
integer stop, as used in `output[1:end_index]` and `output[1:-1]`
(postgrez.py lines 395 and 397). -/
def pySlice1 {α : Type} (stop : Int) (l : List α) : List α :=
  let n : Int := (l.length : Int)
  let s : Int := if stop < 0 then max (n + stop) 0 else min stop n
  (l.take s.toNat).drop 1

/-- A parsed record as built by `export_to_object`: a dict (`header=True`)
or a list of field values (`header=False`). -/
inductive Rec
  | dict (entries : List (List Char × List Char))
  | row (fields : List (List Char))
deriving DecidableEq, Repr

/-- Python dict insertion: a later binding of an existing key overwrites
the value in place, a new key is appended. -/
def pyDictInsert (m : List (List Char × List Char)) (k v : List Char) :
    List (List Char × List Char) :=
  if m.any (fun p => p.1 == k) then m.map (fun p => if p.1 == k then (k, v) else p)
  else m ++ [(k, v)]

/-- The dict comprehension `{cols[i]: value for i, value in
enumerate(row.split(delimiter))}` (postgrez.py lines 393-394): walk the
fields left to right; `cols[i]` raises `IndexError` when the row has more
fields than the header. -/
def pyDictAux (cols : List (List Char)) :
    Nat → List (List Char) → List (List Char × List Char) →
      Except Unit (List (List Char × List Char))
  | _, [], acc => Except.ok acc
  | i, v :: vs, acc =>
    match cols[i]? with
    | none => Except.error ()
    | some k => pyDictAux cols (i + 1) vs (pyDictInsert acc k v)

/-- The full dict comprehension over one data row. -/
def pyDict (cols fields : List (List Char)) : Except Unit (List (List Char × List Char)) :=
  pyDictAux cols 0 fields []

/-- A Python list comprehension whose element expression may raise:
elements are produced left to right and the first exception aborts the
whole comprehension. -/
def mapExcept {α β : Type} (f : α → Except Unit β) : List α → Except Unit (List β)
  | [] => Except.ok []
  | a :: as =>
    match f a with
    | Except.error e => Except.error e
    | Except.ok b =>
      match mapExcept f as with
      | Except.error e => Except.error e
      | Except.ok bs => Except.ok (b :: bs)

/-- The parsing step of `Export.export_to_object` (postgrez.py lines
386-397), applied to the raw text captured from `copy_expert`:

* `output = output.split('\n')`,
* `cols = output[0].split(delimiter)`,
* `end_index = (-1 if len(output[1:]) > 1 else 2)`,
* `header` branch: dict comprehension over `output[1:end_index]`,
* else branch: `[row.split(delimiter) for row in output[1:-1]]`.

The delimiter is modelled as a single character, the only shape the
package ever passes (the spec fixes the delimiter to one character).
Python's `split` on a one-character separator is `List.splitOn`. -/
def parse_copy_output (raw : List Char) (delimiter : Char) (header : Bool) :
    Except Unit (List Rec) :=
  let output := List.splitOn '\n' raw
  let cols := List.splitOn delimiter output.headI
  let endIndex : Int := if 1 < output.length - 1 then -1 else 2
  if header then
    match mapExcept (fun row => pyDict cols (List.splitOn delimiter row))
        (pySlice1 endIndex output) with
    | Except.error e => Except.error e
    | Except.ok ds => Except.ok (ds.map Rec.dict)
  else
    Except.ok ((pySlice1 (-1) output).map (fun row => Rec.row (List.splitOn delimiter row)))

/-- The well-formed export text the round-trip claims describe: a header
line and then one line per data row, fields joined by the delimiter, every
line terminated by a newline.  (This definition follows the claim's
wording; it is the input-shape side of the round trip, not part of the
implementation.) -/
def formatExport (delimiter : Char) (cols : List (List Char))
    (rows : List (List (List Char))) : List Char :=
  List.intercalate [delimiter] cols
    ++ '\n' :: (rows.map (fun r => List.intercalate [delimiter] r ++ ['\n'])).flatten

/-! ### Parser lemmas -/

lemma intercalate_cons_of_ne_nil {c : Char} {a : List Char} {t : List (List Char)} (h : t ≠ []) :
    [c].intercalate (a :: t) = a ++ c :: [c].intercalate t := by
  cases t with
  | nil => exact absurd rfl h
  | cons b t' => simp [List.intercalate, List.intersperse_cons_cons, List.flatten]

lemma not_mem_intercalate (c x : Char) (hx : x ≠ c) :
    ∀ (parts : List (List Char)), (∀ p ∈ parts, x ∉ p) → x ∉ [c].intercalate parts
  | [], _ => by simp [List.intercalate]
  | [a], h => by simpa [List.intercalate] using h a (by simp)
  | a :: b :: t, h => by
    rw [intercalate_cons_of_ne_nil (by simp)]
    intro hmem
    rcases List.mem_append.mp hmem with h1 | h1
    · exact h a (by simp) h1
    · rcases List.mem_cons.mp h1 with h2 | h2
      · exact hx h2
      · exact not_mem_intercalate c x hx (b :: t)
          (fun p hp => h p (List.mem_cons_of_mem _ hp)) h2

lemma flatten_lines_eq_intercalate : ∀ (ls : List (List Char)),
    (ls.map (fun l => l ++ ['\n'])).flatten = ['\n'].intercalate (ls ++ [[]])
  | [] => by simp [List.intercalate]
  | a :: t => by
    rw [List.map_cons, List.flatten_cons, flatten_lines_eq_intercalate t, List.cons_append,
      intercalate_cons_of_ne_nil (by simp), List.append_assoc, List.singleton_append]

lemma splitOn_flatten_lines (ls : List (List Char)) (h : ∀ l ∈ ls, '\n' ∉ l) :
    List.splitOn '\n' ((ls.map (fun l => l ++ ['\n'])).flatten) = ls ++ [[]] := by
  rw [flatten_lines_eq_intercalate]
  refine List.splitOn_intercalate (ls ++ [[]]) '\n' ?_ (by simp)
  intro l hl
  rcases List.mem_append.mp hl with h1 | h1
  · exact h l h1
  · simp only [List.mem_singleton] at h1
    simp [h1]

lemma pySlice1_neg_one {α : Type} (a z : α) (mid : List α) :
    pySlice1 (-1) (a :: (mid ++ [z])) = mid := by
  have hlen : (a :: (mid ++ [z])).length = mid.length + 2 := by simp
  have hs : (if (-1 : Int) < 0 then
      max (((a :: (mid ++ [z])).length : Int) + (-1)) 0
      else min (-1) ((a :: (mid ++ [z])).length : Int)) = ((mid.length + 1 : Nat) : Int) := by
    rw [if_pos (by norm_num), hlen]
    push_cast
    omega
  simp only [pySlice1, hs, Int.toNat_ofNat]
  rw [List.take_succ_cons, List.take_left]
  simp

lemma pyDictInsert_fresh (acc : List (List Char × List Char)) (k v : List Char)
    (h : ∀ p ∈ acc, p.1 ≠ k) : pyDictInsert acc k v = acc ++ [(k, v)] := by
  unfold pyDictInsert
  rw [if_neg]
  simp only [List.any_eq_true, beq_iff_eq, not_exists, not_and]
  intro p hp
  exact h p hp

lemma pyDictAux_zip (cols : List (List Char)) :
    ∀ (fields : List (List Char)) (i : Nat) (acc : List (List Char × List Char)),
      i + fields.length ≤ cols.length →
      (cols.drop i).Nodup →
      (∀ p ∈ acc, p.1 ∉ cols.drop i) →
      pyDictAux cols i fields acc = Except.ok (acc ++ (cols.drop i).zip fields)
  | [], i, acc, _, _, _ => by simp [pyDictAux, List.zip_nil_right]
  | v :: vs, i, acc, h1, h2, h3 => by
    have hi : i < cols.length := by simp at h1; omega
    have hdrop : cols.drop i = cols[i] :: cols.drop (i + 1) := List.drop_eq_getElem_cons hi
    have hfresh : ∀ p ∈ acc, p.1 ≠ cols[i] := by
      intro p hp he
      exact h3 p hp (he ▸ (hdrop ▸ List.mem_cons_self _ _))
    have hnd2 : (cols.drop (i + 1)).Nodup := by
      rw [hdrop] at h2
      exact h2.of_cons
    have hnotmem : cols[i] ∉ cols.drop (i + 1) := by
      rw [hdrop] at h2
      exact (List.nodup_cons.mp h2).1
    calc pyDictAux cols i (v :: vs) acc
        = pyDictAux cols (i + 1) vs (pyDictInsert acc cols[i] v) := by
          simp only [pyDictAux]
          rw [List.getElem?_eq_getElem hi]
      _ = pyDictAux cols (i + 1) vs (acc ++ [(cols[i], v)]) := by
          rw [pyDictInsert_fresh acc cols[i] v hfresh]
      _ = Except.ok ((acc ++ [(cols[i], v)]) ++ (cols.drop (i + 1)).zip vs) := by
          refine pyDictAux_zip cols vs (i + 1) _ ?_ hnd2 ?_
          · simp only [List.length_cons] at h1
            omega
          · intro p hp
            rcases List.mem_append.mp hp with hmem | hmem
            · exact fun hin => h3 p hmem (hdrop ▸ List.mem_cons_of_mem _ hin)
            · simp only [List.mem_singleton] at hmem
              subst hmem
              exact hnotmem
      _ = Except.ok (acc ++ (cols.drop i).zip (v :: vs)) := by
          rw [hdrop, List.zip_cons_cons, List.append_assoc, List.singleton_append]

lemma pyDict_zip (cols fields : List (List Char)) (h1 : fields.length ≤ cols.length)
    (h2 : cols.Nodup) : pyDict cols fields = Except.ok (cols.zip fields) := by
  simpa [pyDict] using pyDictAux_zip cols fields 0 [] (by simpa using h1) (by simpa using h2)
    (by simp)

lemma mapExcept_ok {α β : Type} (f : α → Except Unit β) (g : α → β) :
    ∀ (l : List α), (∀ a ∈ l, f a = Except.ok (g a)) → mapExcept f l = Except.ok (l.map g)
  | [], _ => rfl
  | a :: as, h => by
    rw [mapExcept, h a (by simp),
      mapExcept_ok f g as (fun x hx => h x (List.mem_cons_of_mem _ hx))]
    rfl

/-! ### Claims C1, C2 -/

/-- C1 (code bug).  The claim (and the function's own docstring) says that
with `header=false` parsing returns one record per data row, so
`parse("1,5\n", ",", header=false)` must be `[["1","5"]]`.  The source's
else branch slices `output[1:-1]`, skipping `output[0]` as though a header
line were present even though there is none: the single-row text parses to
`[]` (the only data row is dropped), and a two-row text keeps only the
second row. -/
theorem parse_single_row_no_header_drops_row :
    parse_copy_output ("1,5\n".toList) ',' false = Except.ok []
    ∧ parse_copy_output ("1,5\n2,7\n".toList) ',' false
      = Except.ok [Rec.row [['2'], ['7']]] := by
  constructor <;> rfl

/-- C2, counterexample.  The claim includes `N = 0`: formatting a header
line with zero data rows and parsing with `header=true` must yield zero
records.  The source computes `end_index = 2` when there is at most one
line after the header, so `output[1:2]` keeps the synthetic empty trailing
line and the parser fabricates one record mapping the first column name to
the empty string. -/
theorem parse_header_zero_rows_spurious_record :
    parse_copy_output (formatExport ',' ["id".toList, "amt".toList] []) ',' true
      ≠ Except.ok []
    ∧ parse_copy_output (formatExport ',' ["id".toList, "amt".toList] []) ',' true
      = Except.ok [Rec.dict [("id".toList, [])]] := by
  constructor
  · intro h
    exact absurd (Except.ok.inj h) (by simp)
  · rfl

/-- C2, amended.  Parse is a right inverse of formatting with
`header=true` for `N ≥ 1` data rows (the claim's `N = 1` and `N = many`
cases; `N = 0` fails, see the counterexample): for every header of
distinct, delimiter- and newline-free column names and every non-empty
list of data rows with the header's field count whose fields are
delimiter- and newline-free, formatting and parsing yields exactly one
ordered mapping per row whose keys are the column names and whose values
are the row's fields in column order. -/
theorem parse_header_roundtrip_pos (d : Char) (cols : List (List Char))
    (rows : List (List (List Char)))
    (hd : d ≠ '\n') (hcne : cols ≠ []) (hnd : cols.Nodup)
    (hcol : ∀ c ∈ cols, d ∉ c ∧ '\n' ∉ c)
    (hrne : rows ≠ []) (hw : ∀ r ∈ rows, r.length = cols.length)
    (hf : ∀ r ∈ rows, ∀ v ∈ r, d ∉ v ∧ '\n' ∉ v) :
    parse_copy_output (formatExport d cols rows) d true
      = Except.ok (rows.map (fun r => Rec.dict (cols.zip r))) := by
  have hclen : 0 < cols.length := List.length_pos.mpr hcne
  have hfmt : formatExport d cols rows
      = ((([d].intercalate cols) :: rows.map (fun r => [d].intercalate r)).map
          (fun l => l ++ ['\n'])).flatten := by
    simp only [formatExport, List.map_cons, List.flatten_cons, List.map_map]
    rw [List.append_assoc, List.singleton_append]
    rfl
  have hlines : ∀ l ∈ ([d].intercalate cols) :: rows.map (fun r => [d].intercalate r),
      '\n' ∉ l := by
    intro l hl
    rcases List.mem_cons.mp hl with rfl | hl
    · exact not_mem_intercalate d '\n' (Ne.symm hd) cols (fun p hp => (hcol p hp).2)
    · obtain ⟨r, hr, rfl⟩ := List.mem_map.mp hl
      exact not_mem_intercalate d '\n' (Ne.symm hd) r (fun v hv => (hf r hr v hv).2)
  have hsplit : List.splitOn '\n' (formatExport d cols rows)
      = ([d].intercalate cols) :: (rows.map (fun r => [d].intercalate r) ++ [[]]) := by
    rw [hfmt, splitOn_flatten_lines _ hlines, List.cons_append]
  have hsplitrow : ∀ r ∈ rows, List.splitOn d ([d].intercalate r) = r := by
    intro r hr
    refine List.splitOn_intercalate r d (fun v hv => (hf r hr v hv).1) ?_
    intro hnil
    rw [hnil] at hr
    have := hw [] hr
    simp at this
    omega
  have hcols : List.splitOn d ([d].intercalate cols) = cols :=
    List.splitOn_intercalate cols d (fun p hp => (hcol p hp).1) hcne
  have hlen : 1 < (([d].intercalate cols) :: (rows.map (fun r => [d].intercalate r)
      ++ [[]])).length - 1 := by
    simp only [List.length_cons, List.length_append, List.length_map, List.length_singleton]
    have := List.length_pos.mpr hrne
    omega
  have hmap : mapExcept (fun row => pyDict cols (List.splitOn d row))
      (rows.map (fun r => [d].intercalate r))
      = Except.ok ((rows.map (fun r => [d].intercalate r)).map
          (fun row => cols.zip (List.splitOn d row))) := by
    refine mapExcept_ok _ _ _ ?_
    intro row hrow
    obtain ⟨r, hr, rfl⟩ := List.mem_map.mp hrow
    rw [hsplitrow r hr]
    exact pyDict_zip cols r (le_of_eq (hw r hr)) hnd
  have hmapped : (rows.map (fun r => [d].intercalate r)).map
      (fun row => cols.zip (List.splitOn d row)) = rows.map (fun r => cols.zip r) := by
    rw [List.map_map]
    refine List.map_congr_left ?_
    intro r hr
    simp only [Function.comp_apply]
    rw [hsplitrow r hr]
  simp only [parse_copy_output, hsplit, List.headI, hcols, if_pos hlen, if_true]
  rw [pySlice1_neg_one, hmap, hmapped]
  simp [List.map_map]

/-- C2, witness for the amended round trip at the spec's concrete
scenario (`N = 2`). -/
theorem parse_header_roundtrip_pos_witness :
    (',' : Char) ≠ '\n'
    ∧ parse_copy_output (formatExport ',' ["id".toList, "amt".toList]
        [["1".toList, "5".toList], ["2".toList, "7".toList]]) ',' true
      = Except.ok ([["1".toList, "5".toList], ["2".toList, "7".toList]].map
          (fun r => Rec.dict (["id".toList, "amt".toList].zip r))) :=
  ⟨by decide,
    parse_header_roundtrip_pos ',' ["id".toList, "amt".toList]
      [["1".toList, "5".toList], ["2".toList, "7".toList]]
      (by decide) (by decide) (by decide) (by decide) (by decide) (by decide) (by decide)⟩

/-! ### The stream adapter `utils.IteratorFile` (utils.py lines 114-167) -/

deriving instance DecidableEq for Except

/-- The state of an `IteratorFile`: the pending `next()` outcomes of the
wrapped iterator (`Except.ok` a yielded, already-formatted row string, or
`Except.error` an exception the underlying generator raises, after which a
generator is finished), and the retained `StringIO` buffer.  Between
`read` calls the `StringIO` holds exactly the unread remainder with the
write position at its end, so `tell()` is the buffer length. -/
structure IteratorFile where
  it : List (Except Unit (List Char))
  buf : List Char
deriving DecidableEq, Repr

/-- The loop `while self._f.tell() < length: row = next(self._it);
self._f.write(row + u"\n")` of `IteratorFile.read` (utils.py lines
142-148) with its exception handling (lines 150-156): `StopIteration`
ends the loop with the source exhausted, and any other exception from
`next` is caught, logged and likewise ends the loop (the generator is
finished from then on).  Returns the grown buffer and the remaining
iterator. -/
def readFill (length : Nat) :
    List (Except Unit (List Char)) → List Char → List Char × List (Except Unit (List Char))
  | [], buf => (buf, [])
  | x :: xs, buf =>
    if buf.length < length then
      match x with
      | Except.error _ => (buf, [])
      | Except.ok r => readFill length xs (buf ++ r ++ ['\n'])
    else (buf, x :: xs)

/-- `IteratorFile.read(length)` (utils.py lines 133-167): fill the buffer
to at least `length` characters (or until the source ends), return the
first `length` characters, and retain the remainder for the next call
(the `finally` block, lines 158-167). -/
def IteratorFile.read (f : IteratorFile) (length : Nat) : List Char × IteratorFile :=
  let p := readFill length f.it f.buf
  (p.1.take length, ⟨p.2, p.1.drop length⟩)

/-- Successive `read` calls with the given lengths, concatenating the
returned chunks — the way `psycopg2.cursor.copy_from` consumes the
adapter. -/
def runReads : IteratorFile → List Nat → List Char × IteratorFile
  | f, [] => ([], f)
  | f, n :: ns =>
    let p := f.read n
    let q := runReads p.2 ns
    (p.1 ++ q.1, q.2)

/-- The text an iterator still delivers: every `ok` row up to the first
error, each with the newline `read` appends; an error silently truncates
the stream (utils.py lines 155-156 swallow it after logging). -/
def deliveredText : List (Except Unit (List Char)) → List Char
  | [] => []
  | Except.error _ :: _ => []
  | Except.ok r :: rest => r ++ '\n' :: deliveredText rest

/-! ### Stream adapter lemmas -/

lemma read_spec (n : Nat) :
    ∀ (it : List (Except Unit (List Char))) (buf : List Char),
      ∃ it2 buf2,
        IteratorFile.read ⟨it, buf⟩ n = ((buf ++ deliveredText it).take n, ⟨it2, buf2⟩)
        ∧ buf2 ++ deliveredText it2 = (buf ++ deliveredText it).drop n
        ∧ ∀ x ∈ it2, x ∈ it
  | [], buf =>
    ⟨[], buf.drop n, by simp [IteratorFile.read, readFill, deliveredText],
      by simp [deliveredText], by simp⟩
  | x :: xs, buf => by
    by_cases hlt : buf.length < n
    · cases x with
      | error e =>
        refine ⟨[], buf.drop n, ?_, ?_, by simp⟩
        · simp [IteratorFile.read, readFill, hlt, deliveredText]
        · simp [deliveredText]
      | ok r =>
        obtain ⟨it2, buf2, h1, h2, h3⟩ := read_spec n xs (buf ++ r ++ ['\n'])
        have hunf : IteratorFile.read ⟨Except.ok r :: xs, buf⟩ n
            = IteratorFile.read ⟨xs, buf ++ r ++ ['\n']⟩ n := by
          simp [IteratorFile.read, readFill, hlt]
        have htot : (buf ++ r ++ ['\n']) ++ deliveredText xs
            = buf ++ deliveredText (Except.ok r :: xs) := by
          simp [deliveredText, List.append_assoc]
        refine ⟨it2, buf2, ?_, ?_, fun y hy => List.mem_cons_of_mem _ (h3 y hy)⟩
        · rw [hunf, h1, htot]
        · rw [h2, htot]
    · have hle : n ≤ buf.length := Nat.not_lt.mp hlt
      refine ⟨x :: xs, buf.drop n, ?_, ?_, fun _ h => h⟩
      · have hrf : readFill n (x :: xs) buf = (buf, x :: xs) := by
          simp [readFill, hlt]
        simp [IteratorFile.read, hrf, List.take_append_of_le_length hle]
      · rw [List.drop_append_of_le_length hle]

lemma runReads_spec :
    ∀ (lens : List Nat) (it : List (Except Unit (List Char))) (buf : List Char),
      (buf ++ deliveredText it).length ≤ lens.sum →
      ∃ it2 buf2,
        runReads ⟨it, buf⟩ lens = (buf ++ deliveredText it, ⟨it2, buf2⟩)
        ∧ buf2 = [] ∧ deliveredText it2 = [] ∧ ∀ x ∈ it2, x ∈ it
  | [], it, buf, h => by
    have h0 : (buf ++ deliveredText it).length = 0 := by
      simp only [List.sum_nil] at h
      omega
    have hnil : buf ++ deliveredText it = [] := List.length_eq_zero.mp h0
    obtain ⟨hb, hd⟩ := List.append_eq_nil.mp hnil
    exact ⟨it, buf, by simp [runReads, hb, hd], hb, hd, fun _ h => h⟩
  | n :: ns, it, buf, h => by
    obtain ⟨itm, bufm, h1, h2, h3⟩ := read_spec n it buf
    have hlen2 : (bufm ++ deliveredText itm).length ≤ ns.sum := by
      rw [h2, List.length_drop]
      simp only [List.sum_cons] at h
      omega
    obtain ⟨it2, buf2, h4, h5, h6, h7⟩ := runReads_spec ns itm bufm hlen2
    refine ⟨it2, buf2, ?_, h5, h6, fun y hy => h3 y (h7 y hy)⟩
    simp only [runReads]
    rw [h1]
    simp only
    rw [h4]
    simp only
    rw [h2, List.take_append_drop]

lemma deliveredText_map_ok : ∀ (rows : List (List Char)),
    deliveredText (rows.map Except.ok) = (rows.map (fun r => r ++ ['\n'])).flatten
  | [] => rfl
  | r :: rs => by
    simp [deliveredText, deliveredText_map_ok rs, List.append_assoc]

/-! ### Claim C6 -/

/-- C6 (confirmed).  RowStreamAdapter round trip: for every finite list of
already-formatted row strings and every list of positive read lengths
whose total reaches the full text (the "read until empty" discipline),
concatenating the chunks returned by successive `IteratorFile.read` calls
yields exactly the rows joined with one trailing newline each; the state
is then fully drained, and every further `read` on a drained adapter
returns the empty result. -/
theorem iterator_file_roundtrip (rows : List (List Char)) (lens : List Nat)
    (hpos : ∀ n ∈ lens, 0 < n)
    (hsum : ((rows.map (fun r => r ++ ['\n'])).flatten).length ≤ lens.sum) :
    (runReads ⟨rows.map Except.ok, []⟩ lens).1 = (rows.map (fun r => r ++ ['\n'])).flatten
    ∧ (runReads ⟨rows.map Except.ok, []⟩ lens).2 = ⟨[], []⟩
    ∧ ∀ m, IteratorFile.read ⟨[], []⟩ m = ([], ⟨[], []⟩) := by
  obtain ⟨it2, buf2, h1, h2, h3, h4⟩ := runReads_spec lens (rows.map Except.ok) []
    (by simpa [deliveredText_map_ok] using hsum)
  have hit2 : it2 = [] := by
    cases it2 with
    | nil => rfl
    | cons y ys =>
      obtain ⟨r, _, rfl⟩ := List.mem_map.mp (h4 y (by simp))
      simp [deliveredText] at h3
  refine ⟨?_, ?_, ?_⟩
  · rw [h1]
    simp [deliveredText_map_ok]
  · rw [h1, hit2, h2]
  · intro m
    simp [IteratorFile.read, readFill]

/-- C6, witness: two rows drained with chunk sizes 1, 3 and 9. -/
theorem iterator_file_roundtrip_witness :
    (∀ n ∈ [1, 3, 9], 0 < n)
    ∧ (runReads ⟨["ab".toList, "c".toList].map Except.ok, []⟩ [1, 3, 9]).1
      = (["ab".toList, "c".toList].map (fun r => r ++ ['\n'])).flatten :=
  ⟨by decide,
    (iterator_file_roundtrip ["ab".toList, "c".toList] [1, 3, 9] (by decide) (by decide)).1⟩

/-! ### The session operations (postgrez.py, classes `Cmd`, `Load`, `Export`)

The psycopg2 connection/cursor pair and the file system are external
collaborators.  They are modelled by explicit parameters: `connected`
(whether `conn`/`cursor` exist — the only thing `Connection._connected`
checks), the outcome of the bulk-copy primitive, and the readable file's
contents.  An event trace records the externally visible calls, so "the
command is built before the failure" and "commit is never invoked" are
statable. -/

/-- The postgrez exception that reaches the caller. -/
inductive PgError
  | connErr (msg : String)
  | execErr (msg : String)
  | loadErr (msg : String)
  | exportErr (msg : String)
deriving DecidableEq, Repr

/-- Externally visible calls made by a session operation. -/
inductive Ev
  | builtQuery (cmd : String)
  | executed (q : String)
  | copyFrom (text : List Char)
  | copyExpert (cmd : String)
  | commit
deriving DecidableEq, Repr

/-- `Cmd.execute(query, query_vars, commit)` (postgrez.py lines 172-199):
the single method that checks `_connected()` and raises
`PostgrezConnectionError` before doing anything else; on an execution
error it raises `PostgrezExecuteError` carrying the first 50 characters of
the query and the cause. -/
def execute (connected : Bool) (execFail : Option String) (query : String) (commit : Bool) :
    Except PgError Unit × List Ev :=
  if connected then
    match execFail with
    | some e =>
        (Except.error (PgError.execErr ("Unable to execute query " ++ query.take 50
          ++ " due to Error: " ++ e)), [Ev.executed query])
    | none => (Except.ok (), if commit then [Ev.executed query, Ev.commit] else [Ev.executed query])
  else (Except.error (PgError.connErr "No connection has been established"), [])

/-- The generator expression `(template_string.format(*x) for x in data)`
of `Load.load_from_object` (postgrez.py line 231), where `template_string`
is `"|".join(['{}'] * table_width)`: `str.format` ignores surplus
positional arguments and raises `IndexError` when a row has fewer fields
than the template has placeholders.  Scalar-to-text conversion (`str(x)`)
is abstracted: fields arrive as their character lists. -/
def fmtRow (width : Nat) (x : List (List Char)) : Except Unit (List Char) :=
  if width ≤ x.length then Except.ok (List.intercalate ['|'] (x.take width))
  else Except.error ()

/-- `Load.load_from_object(table_name, data)` (postgrez.py lines 215-237).
No connectivity check is performed.  `table_width = len(data[0])` raises
`IndexError` on an empty list before anything external happens; otherwise
an `IteratorFile` over the formatting generator is handed to
`cursor.copy_from`, which drains it (`deliveredText`, see `runReads_spec`:
repeatedly reading the adapter delivers exactly the ok-rows before the
first generator error, newline-terminated — errors are swallowed inside
`IteratorFile.read`), then `conn.commit()` runs.  Every exception in the
body is re-raised as `PostgrezLoadError` carrying the cause.  With no
connection, `self.cursor` is `None` and the attribute access raises before
anything is read. -/
def load_from_object (connected : Bool) (copyFail : Option String) (table_name : String)
    (data : List (List (List Char))) : Except PgError Unit × List Ev :=
  match data with
  | [] =>
      (Except.error (PgError.loadErr
        "Unable to load data to Postgres. Error: list index out of range"), [])
  | first :: rest =>
    if connected then
      let text := deliveredText ((first :: rest).map (fmtRow first.length))
      match copyFail with
      | some e =>
          (Except.error (PgError.loadErr ("Unable to load data to Postgres. Error: " ++ e)),
            [Ev.copyFrom text])
      | none => (Except.ok (), [Ev.copyFrom text, Ev.commit])
    else
      (Except.error (PgError.loadErr
        "Unable to load data to Postgres. Error: 'NoneType' object has no attribute 'copy_from'"),
        [])

/-- Python local-name resolution for a function body: looking up a name
that is bound by no parameter and no assignment raises `NameError`. -/
def lookupPyLocal (localVars : List (String × String)) (nm : String) : Except String String :=
  match localVars.find? (fun p => p.1 == nm) with
  | some p => Except.ok p.2
  | none => Except.error ("name '" ++ nm ++ "' is not defined")

/-- `Load.load_from_file(table_name, filename, delimiter)` (postgrez.py
lines 240-261).  No connectivity check.  The file is opened first; then
line 256 calls `self.cursor.copy_from(f, table, sep=delimiter,
null='NULL')` — `table` is not a name bound in this function (its locals
are `table_name`, `filename`, `delimiter`, `f`), so evaluating the
argument raises `NameError`, which the `except` turns into
`PostgrezLoadError`.  The bulk copy is never reached. -/
def load_from_file (connected : Bool) (copyFail : Option String) (table_name filename : String)
    (file : Option (List Char)) (delimiter : String) : Except PgError Unit × List Ev :=
  match file with
  | none =>
      (Except.error (PgError.loadErr
        ("Unable to load file to Postgres. Error: [Errno 2] No such file or directory: '"
          ++ filename ++ "'")), [])
  | some contents =>
    if connected then
      match lookupPyLocal [("table_name", table_name), ("filename", filename),
          ("delimiter", delimiter)] "table" with
      | Except.error e =>
          (Except.error (PgError.loadErr ("Unable to load file to Postgres. Error: " ++ e)), [])
      | Except.ok tbl =>
        match copyFail with
        | some e =>
            (Except.error (PgError.loadErr ("Unable to load file to Postgres. Error: " ++ e)),
              [Ev.copyFrom contents])
        | none => (Except.ok (), [Ev.copyFrom contents, Ev.commit])
    else
      (Except.error (PgError.loadErr
        "Unable to load file to Postgres. Error: 'NoneType' object has no attribute 'copy_from'"),
        [])

/-- `Export.export_to_object(query, columns, delimiter, header)`
(postgrez.py lines 355-402).  The copy command is built first (outside the
`try`), so the build happens even when no connection exists; then
`cursor.copy_expert` captures `copyOut` into a `StringIO` and the captured
text is parsed by the slicing logic embedded as `parse_copy_output`.
Every exception inside the `try` is re-raised as `PostgrezExportError`
carrying the cause; without a connection the `None` cursor's attribute
access raises inside the `try`. -/
def export_to_object (connected : Bool) (copyOut : Except String (List Char)) (query : String)
    (columns : List String) (delimiter : Char) (header : Bool) :
    Except PgError (List Rec) × List Ev :=
  let cmd := (export_build_copy_query query columns (String.singleton delimiter) header).1
  if connected then
    match copyOut with
    | Except.error e =>
        (Except.error (PgError.exportErr ("Unable to export to object. Error: " ++ e)),
          [Ev.builtQuery cmd, Ev.copyExpert cmd])
    | Except.ok raw =>
      match parse_copy_output raw delimiter header with
      | Except.error _ =>
          (Except.error (PgError.exportErr
            "Unable to export to object. Error: list index out of range"),
            [Ev.builtQuery cmd, Ev.copyExpert cmd])
      | Except.ok recs => (Except.ok recs, [Ev.builtQuery cmd, Ev.copyExpert cmd])
  else
    (Except.error (PgError.exportErr
      "Unable to export to object. Error: 'NoneType' object has no attribute 'copy_expert'"),
      [Ev.builtQuery cmd])

/-- `Export.export_to_file(query, filename, columns, delimiter, header)`
(postgrez.py lines 324-352): the command is built first, then the output
file is opened, then `cursor.copy_expert` streams into it; any exception
inside the `try` is re-raised as `PostgrezExportError`. -/
def export_to_file (connected : Bool) (fileOpenFail : Option String) (copyFail : Option String)
    (query filename : String) (columns : List String) (delimiter : String) (header : Bool) :
    Except PgError Unit × List Ev :=
  let cmd := (export_build_copy_query query columns delimiter header).1
  match fileOpenFail with
  | some e =>
      (Except.error (PgError.exportErr ("Unable to export to file " ++ filename
        ++ ". Error: " ++ e)), [Ev.builtQuery cmd])
  | none =>
    if connected then
      match copyFail with
      | some e =>
          (Except.error (PgError.exportErr ("Unable to export to file " ++ filename
            ++ ". Error: " ++ e)), [Ev.builtQuery cmd])
      | none => (Except.ok (), [Ev.builtQuery cmd, Ev.copyExpert cmd])
    else
      (Except.error (PgError.exportErr ("Unable to export to file " ++ filename
        ++ ". Error: 'NoneType' object has no attribute 'copy_expert'")), [Ev.builtQuery cmd])

/-! ### Claims C7, C8, C9, C10 -/

/-- C7, counterexample.  The claim says a row-source or formatting error
raised mid-stream makes the load fail with a LoadError.  Loading the rows
`[("1","2"), ("3",)]` into a two-column template makes the generator raise
`IndexError` on the second row; `IteratorFile.read` catches and logs it
(utils.py lines 155-156), the stream simply ends after `"1|2\n"`, and the
load commits the truncated data and returns success. -/
theorem load_swallows_row_error_cex :
    load_from_object true none "t" [[['1'], ['2']], [['3']]]
      = (Except.ok (), [Ev.copyFrom ("1|2\n".toList), Ev.commit]) := by
  rfl

/-- C7, amended.  An error raised by the external bulk-copy-in primitive
(or surfaced through it) fails the load with a `PostgrezLoadError`
carrying the underlying cause; but an error raised by the row source or
by row formatting inside the adapter's `read` is caught and logged there,
silently truncating the stream to the rows before the error
(`deliveredText`), after which the load commits and completes as
success. -/
theorem load_error_propagation_amended (table e : String) (first : List (List Char))
    (rest : List (List (List Char))) :
    (load_from_object true (some e) table (first :: rest)).1
      = Except.error (PgError.loadErr ("Unable to load data to Postgres. Error: " ++ e))
    ∧ load_from_object true none table (first :: rest)
      = (Except.ok (),
          [Ev.copyFrom (deliveredText ((first :: rest).map (fmtRow first.length))), Ev.commit]) := by
  constructor <;> rfl

/-- C8 (code bug).  The claim says loading from a readable file passes the
raw bytes to the bulk-copy-in primitive and succeeds.  The source calls
`cursor.copy_from(f, table, ...)` with the unbound name `table` (the
parameter is `table_name`), so every call with a readable file raises
`NameError`, re-raised as `PostgrezLoadError`; the bulk copy and the
commit are never invoked. -/
theorem load_from_file_name_error (copyFail : Option String) (table_name filename : String)
    (contents : List Char) (delimiter : String) :
    load_from_file true copyFail table_name filename (some contents) delimiter
      = (Except.error (PgError.loadErr
          "Unable to load file to Postgres. Error: name 'table' is not defined"), []) := by
  rfl

/-- C9, counterexample.  The claim says every session operation invoked
without a live connection fails with a ConnectionError before any command
is built.  `Export.export_to_object` does no connectivity check: it builds
the copy command first and then fails with `PostgrezExportError` (the
`None` cursor's attribute access), not `PostgrezConnectionError`. -/
theorem export_without_connection_cex :
    export_to_object false (Except.ok []) "orders" [] ',' true
      = (Except.error (PgError.exportErr
          "Unable to export to object. Error: 'NoneType' object has no attribute 'copy_expert'"),
          [Ev.builtQuery "COPY orders  TO STDOUT WITH DELIMITER ','  CSV HEADER"]) := by
  rfl

/-- C9, amended.  Only `Cmd.execute` checks for a live connection and
fails with `PostgrezConnectionError` before doing anything.  The load and
export operations perform no such check: without a connection the export
operations still build the copy command and then fail with
`PostgrezExportError`, and the load operations fail with
`PostgrezLoadError`; none of them raises a ConnectionError. -/
theorem no_connection_behavior :
    (∀ (ef : Option String) (q : String) (c : Bool),
      execute false ef q c = (Except.error (PgError.connErr "No connection has been established"),
        []))
    ∧ (∀ (co : Except String (List Char)) (q : String) (cols : List String) (d : Char) (h : Bool),
      export_to_object false co q cols d h
        = (Except.error (PgError.exportErr
            "Unable to export to object. Error: 'NoneType' object has no attribute 'copy_expert'"),
            [Ev.builtQuery (export_build_copy_query q cols (String.singleton d) h).1]))
    ∧ (∀ (cf : Option String) (q fn : String) (cols : List String) (d : String) (h : Bool),
      export_to_file false none cf q fn cols d h
        = (Except.error (PgError.exportErr ("Unable to export to file " ++ fn
            ++ ". Error: 'NoneType' object has no attribute 'copy_expert'")),
            [Ev.builtQuery (export_build_copy_query q cols d h).1]))
    ∧ (∀ (cf : Option String) (t : String) (data : List (List (List Char))),
      ∃ m, load_from_object false cf t data = (Except.error (PgError.loadErr m), []))
    ∧ (∀ (cf : Option String) (t fn : String) (file : Option (List Char)) (d : String),
      ∃ m, load_from_file false cf t fn file d = (Except.error (PgError.loadErr m), [])) := by
  refine ⟨fun ef q c => rfl, fun co q cols d h => rfl, fun cf q fn cols d h => rfl, ?_, ?_⟩
  · intro cf t data
    cases data with
    | nil => exact ⟨"Unable to load data to Postgres. Error: list index out of range", rfl⟩
    | cons first rest =>
      exact ⟨"Unable to load data to Postgres. Error: 'NoneType' object has no attribute 'copy_from'",
        rfl⟩
  · intro cf t fn file d
    cases file with
    | none =>
      exact ⟨"Unable to load file to Postgres. Error: [Errno 2] No such file or directory: '"
        ++ fn ++ "'", rfl⟩
    | some contents =>
      exact
        ⟨"Unable to load file to Postgres. Error: 'NoneType' object has no attribute 'copy_from'",
          rfl⟩

/-- C10 (confirmed, implicit claim).  `load_from_object` with an empty row
list raises `PostgrezLoadError` (from the `IndexError` of
`len(data[0])`, taken before any transfer), and neither the bulk-copy-in
primitive nor commit is ever invoked — the event trace is empty.  Loading
zero rows never succeeds as a no-op. -/
theorem load_empty_data_raises (connected : Bool) (copyFail : Option String) (table : String) :
    load_from_object connected copyFail table []
      = (Except.error (PgError.loadErr
          "Unable to load data to Postgres. Error: list index out of range"), []) := by
  rfl

end Postgrez
